import Mathlib

/-!
Verification development for a Playwright page-object test framework.

The embedding models three layers of the repository:
* `CommonActions` (utils/CommonActions.ts) — the action wrapper around
  Playwright locator primitives, modelled as a writer-plus-exception
  computation recording the primitive calls it issues;
* the page objects `LoginPage`, `SecurePage`, `CheckboxesPage`
  (pages/*.ts) — modelled over an abstract DOM state;
* `PomManager` (pages/PomManager.js) — the lazy page-object cache,
  modelled as an explicit state machine with allocation identities
  standing in for JavaScript reference identity.
-/

/-- Abstract view of the single DOM element an action wrapper call resolves
to: whether it becomes visible within the wait timeout, and its text content
(`none` models a `null` result of `textContent`). -/
structure UiElement where
  visible : Bool
  text : Option String
deriving Repr, DecidableEq

/-- One primitive Playwright locator call, together with the argument values
the wrapper passed to it.  `checkPrim` and `uncheckPrim` record the timeout
argument as an `Option` so that a call made without any timeout argument is
distinguishable from one made with an explicit timeout. -/
inductive PrimCall where
  | waitForVisible (timeout : Nat)
  | clickPrim (force : Bool) (timeout : Nat)
  | textContentPrim (timeout : Nat)
  | checkPrim (timeout : Option Nat)
  | uncheckPrim (timeout : Option Nat)
deriving Repr, DecidableEq

/-- Errors surfaced by the underlying automation library. -/
inductive ActionError where
  | timeoutError
deriving Repr, DecidableEq

/-- An action-wrapper computation: the trace of primitive calls it issued, and
either its result or the error it propagated.  Awaited sequencing of the
TypeScript source is modelled by `actBind`: a failed step stops the
computation, so later primitives are never issued. -/
def Act (α : Type) : Type := List PrimCall × Except ActionError α

/-- Lift a pure value into an action computation (no primitive calls). -/
def actPure {α : Type} (a : α) : Act α := ([], Except.ok a)

/-- Sequencing of awaited action steps: errors propagate and cut off the rest
of the computation, exactly as an uncaught rejection does in the source. -/
def actBind {α β : Type} (x : Act α) (f : α → Act β) : Act β :=
  match x with
  | (tr, Except.error e) => (tr, Except.error e)
  | (tr, Except.ok a) =>
    match f a with
    | (tr2, r) => (tr ++ tr2, r)

/-- Model of `locator.waitFor({ state: 'visible', timeout })`: succeeds when
the element becomes visible within the timeout, otherwise raises a
`TimeoutError`. -/
def locatorWaitForVisible (el : UiElement) (timeout : Nat) : Act Unit :=
  ([PrimCall.waitForVisible timeout],
    if el.visible then Except.ok () else Except.error ActionError.timeoutError)

/-- Model of `locator.click({ force, timeout })`. -/
def locatorClick (force : Bool) (timeout : Nat) : Act Unit :=
  ([PrimCall.clickPrim force timeout], Except.ok ())

/-- Model of `locator.textContent({ timeout })`. -/
def locatorTextContent (el : UiElement) (timeout : Nat) : Act (Option String) :=
  ([PrimCall.textContentPrim timeout], Except.ok el.text)

/-- Model of `locator.check(...)`; the argument records the timeout option the
wrapper passed, `none` when the primitive was invoked without one. -/
def locatorCheck (timeout : Option Nat) : Act Unit :=
  ([PrimCall.checkPrim timeout], Except.ok ())

/-- Model of `locator.uncheck(...)`; same convention as `locatorCheck`. -/
def locatorUncheck (timeout : Option Nat) : Act Unit :=
  ([PrimCall.uncheckPrim timeout], Except.ok ())

/-- Options object of `CommonActions.click`; absent properties are `none`,
mirroring destructuring with defaults in the source. -/
structure ClickOptions where
  force : Option Bool := none
  timeout : Option Nat := none

/-- Options object of `CommonActions.check`. -/
structure CheckOptions where
  timeout : Option Nat := none

/-- Options object of `CommonActions.getText`. -/
structure GetTextOptions where
  timeout : Option Nat := none
  trim : Option Bool := none

/-- Embedding of `CommonActions.click` (utils/CommonActions.ts): destructure
`force = false`, `timeout = 10_000`, await `waitFor({state:'visible',timeout})`,
then await `click({ force, timeout })`. -/
def CommonActions.click (el : UiElement) (options : ClickOptions) : Act Unit :=
  actBind (locatorWaitForVisible el (options.timeout.getD 10000))
    (fun _ => locatorClick (options.force.getD false) (options.timeout.getD 10000))

/-- Embedding of `CommonActions.getText`: destructure `timeout = 10_000`,
`trim = true`; await the visibility wait, await `textContent({ timeout })`,
then return `trim ? text?.trim() : text ?? undefined`. -/
def CommonActions.getText (el : UiElement) (options : GetTextOptions) :
    Act (Option String) :=
  actBind (locatorWaitForVisible el (options.timeout.getD 10000))
    (fun _ => actBind (locatorTextContent el (options.timeout.getD 10000))
      (fun text =>
        actPure (if options.trim.getD true then text.map String.trim else text)))

/-- Embedding of `CommonActions.check`: destructure `timeout = 10_000` from the
options object and call `locator.check({ timeout })`. -/
def CommonActions.check (options : CheckOptions) : Act Unit :=
  locatorCheck (some (options.timeout.getD 10000))

/-- Embedding of `CommonActions.uncheck`: the source method takes no options
parameter and calls `locator.uncheck()` with no arguments at all. -/
def CommonActions.uncheck : Act Unit :=
  locatorUncheck none

/-- Embedding of `SecurePage.getMessage` (pages/SecurePage.ts): call
`getText(this.flashMessage, { timeout: 8000 })` and return `message ?? ''`. -/
def SecurePage.getMessage (el : UiElement) : Act String :=
  actBind (CommonActions.getText el { timeout := some 8000 })
    (fun message => actPure (message.getD ""))

/-- The three locator fields of `LoginPage` that `login` touches. -/
inductive LoginField where
  | usernameInput
  | passwordInput
  | loginButton
deriving Repr, DecidableEq

/-- One Action-Wrapper-level call made by a `LoginPage` method. -/
inductive AwCall where
  | fillCall (field : LoginField) (text : String)
  | clickCall (field : LoginField)
deriving Repr, DecidableEq

/-- Abstract state of the login form rendered by the target application. -/
structure LoginForm where
  usernameValue : String
  passwordValue : String
  submitted : Bool
deriving Repr, DecidableEq

/-- Effect on the form of filling one field (fill replaces the value). -/
def fillField (f : LoginField) (text : String) (s : LoginForm) : LoginForm :=
  match f with
  | LoginField.usernameInput => { s with usernameValue := text }
  | LoginField.passwordInput => { s with passwordValue := text }
  | LoginField.loginButton => s

/-- Model of one `actions.fill(locator, text)` call: records the call and
updates the form. -/
def awFill (f : LoginField) (text : String) (s : LoginForm) :
    List AwCall × LoginForm :=
  ([AwCall.fillCall f text], fillField f text s)

/-- Model of one `actions.click(locator)` call: clicking the submit button
submits the form. -/
def awClick (f : LoginField) (s : LoginForm) : List AwCall × LoginForm :=
  ([AwCall.clickCall f],
    if f = LoginField.loginButton then { s with submitted := true } else s)

/-- Embedding of `LoginPage.login` (pages/LoginPage.ts): await
`fill(usernameInput, username)`, then `fill(passwordInput, password)`, then
`click(loginButton)`, each step sequenced after the previous one. -/
def LoginPage.login (username password : String) (s0 : LoginForm) :
    List AwCall × LoginForm :=
  let r1 := awFill LoginField.usernameInput username s0
  let r2 := awFill LoginField.passwordInput password r1.2
  let r3 := awClick LoginField.loginButton r2.2
  (r1.1 ++ r2.1 ++ r3.1, r3.2)

/-- A constructed page-object instance.  `allocId` stands in for JavaScript
object identity: each `new` expression yields a fresh id, so two instances are
reference-identical exactly when their ids agree. -/
structure PageInstance where
  allocId : Nat
  pageHandle : Nat
deriving Repr, DecidableEq

/-- State of a `PomManager` (pages/PomManager.js): the stored Playwright page
handle, an allocation counter supplying fresh ids for `new`, and the three
nullable backing fields `_loginPage`, `_securePage`, `_checkboxesPage`. -/
structure PomManager where
  page : Nat
  fresh : Nat
  loginPageField : Option PageInstance
  securePageField : Option PageInstance
  checkboxesPageField : Option PageInstance
deriving Repr, DecidableEq

/-- The `PomManager` constructor: store the page and initialise all three
backing fields to `null`. -/
def PomManager.mkNew (page : Nat) : PomManager :=
  { page := page, fresh := 0, loginPageField := none, securePageField := none,
    checkboxesPageField := none }

/-- Embedding of `PomManager.getLoginPage`: when `_loginPage` is null,
construct a new instance (fresh identity, passing the stored page) and store
it; return the stored instance. -/
def PomManager.getLoginPage (s : PomManager) : PageInstance × PomManager :=
  match s.loginPageField with
  | some inst => (inst, s)
  | none =>
    let inst : PageInstance := { allocId := s.fresh, pageHandle := s.page }
    (inst, { s with fresh := s.fresh + 1, loginPageField := some inst })

/-- Embedding of `PomManager.getSecurePage`, same shape as `getLoginPage`. -/
def PomManager.getSecurePage (s : PomManager) : PageInstance × PomManager :=
  match s.securePageField with
  | some inst => (inst, s)
  | none =>
    let inst : PageInstance := { allocId := s.fresh, pageHandle := s.page }
    (inst, { s with fresh := s.fresh + 1, securePageField := some inst })

/-- Embedding of `PomManager.getCheckboxesPage`, same shape as
`getLoginPage`. -/
def PomManager.getCheckboxesPage (s : PomManager) : PageInstance × PomManager :=
  match s.checkboxesPageField with
  | some inst => (inst, s)
  | none =>
    let inst : PageInstance := { allocId := s.fresh, pageHandle := s.page }
    (inst, { s with fresh := s.fresh + 1, checkboxesPageField := some inst })

/-- The complete public operation set of `PomManager`: the class exposes only
its three getters. -/
inductive PomOp where
  | getLoginOp
  | getSecureOp
  | getCheckboxesOp
deriving Repr, DecidableEq

/-- Dispatch one manager operation. -/
def PomManager.applyOp (op : PomOp) (s : PomManager) : PageInstance × PomManager :=
  match op with
  | PomOp.getLoginOp => PomManager.getLoginPage s
  | PomOp.getSecureOp => PomManager.getSecurePage s
  | PomOp.getCheckboxesOp => PomManager.getCheckboxesPage s

/-- Run a sequence of manager operations, discarding the returned instances. -/
def PomManager.runOps (ops : List PomOp) (s : PomManager) : PomManager :=
  match ops with
  | [] => s
  | op :: rest => PomManager.runOps rest (PomManager.applyOp op s).2

/-- One DOM element on the checkboxes page, described by the attributes the
selectors in CheckboxesPage.ts inspect: whether its tag is `input`, whether
its `type` attribute is `checkbox`, and its current checked state.  A
checkbox is an element with both tag flags set. -/
structure Elem where
  inputTag : Bool
  checkboxType : Bool
  checked : Bool
deriving Repr, DecidableEq

/-- An element matches the selector `input[type="checkbox"]`. -/
def elemIsCheckbox (e : Elem) : Bool := e.inputTag && e.checkboxType

/-- The checked states, in DOM order, of the elements of a child list that
match `input[type="checkbox"]`. -/
def childStates (es : List Elem) : List Bool :=
  es.filterMap (fun e => if elemIsCheckbox e then some e.checked else none)

/-- The page DOM as the CheckboxesPage selectors see it: the children of the
`#checkboxes` container, and the child lists of every other parent element on
the page (each inner list is one sibling group). -/
structure Dom where
  container : List Elem
  rest : List (List Elem)
deriving Repr, DecidableEq

/-- Embedding of `CheckboxesPage.getCheckboxStates`: enumerate
`this.checkboxes.all()` — the container-scoped locator
`#checkboxes input[type="checkbox"]` — and read `isChecked()` of each. -/
def CheckboxesPage.getCheckboxStates (d : Dom) : List Bool :=
  childStates d.container

/-- Loop body of `CheckboxesPage.checkAll`: walk the matched checkboxes in
order (the counter `m` is the position in the matched sequence); for each one
that is not already checked, issue a check — recorded in the returned index
trace — setting it checked; already-checked ones are left untouched with no
operation recorded. -/
def checkAllGo : Nat → List Elem → List Nat × List Elem
  | _, [] => ([], [])
  | m, e :: es =>
    if elemIsCheckbox e then
      if e.checked then
        ((checkAllGo (m + 1) es).1, e :: (checkAllGo (m + 1) es).2)
      else
        (m :: (checkAllGo (m + 1) es).1,
          { e with checked := true } :: (checkAllGo (m + 1) es).2)
    else
      ((checkAllGo m es).1, e :: (checkAllGo m es).2)

/-- Loop body of `CheckboxesPage.uncheckAll`: dual of `checkAllGo`. -/
def uncheckAllGo : Nat → List Elem → List Nat × List Elem
  | _, [] => ([], [])
  | m, e :: es =>
    if elemIsCheckbox e then
      if e.checked then
        (m :: (uncheckAllGo (m + 1) es).1,
          { e with checked := false } :: (uncheckAllGo (m + 1) es).2)
      else
        ((uncheckAllGo (m + 1) es).1, e :: (uncheckAllGo (m + 1) es).2)
    else
      ((uncheckAllGo m es).1, e :: (uncheckAllGo m es).2)

/-- Embedding of `CheckboxesPage.checkAll`: iterate over `checkboxes.all()`
(scoped to the container) and check every currently-unchecked one; returns the
indices that were flipped and the resulting DOM. -/
def CheckboxesPage.checkAll (d : Dom) : List Nat × Dom :=
  ((checkAllGo 0 d.container).1, { d with container := (checkAllGo 0 d.container).2 })

/-- Embedding of `CheckboxesPage.uncheckAll`: iterate over `checkboxes.all()`
and uncheck every currently-checked one. -/
def CheckboxesPage.uncheckAll (d : Dom) : List Nat × Dom :=
  ((uncheckAllGo 0 d.container).1,
    { d with container := (uncheckAllGo 0 d.container).2 })

/-- Deep array equality as performed by `expect(actual).toEqual(expected)` on
boolean arrays: same length and equal entries position by position. -/
def arrayToEqual : List Bool → List Bool → Bool
  | [], [] => true
  | x :: xs, y :: ys => (x == y) && arrayToEqual xs ys
  | _, _ => false

/-- Embedding of `CheckboxesPage.validateAllCheckboxStates`: read
`getCheckboxStates()` and assert deep equality with the expectation; `true`
means the assertion passes, `false` that it raises. -/
def CheckboxesPage.validateAllCheckboxStates (d : Dom) (expected : List Bool) : Bool :=
  arrayToEqual (CheckboxesPage.getCheckboxStates d) expected

/-- Resolution of the page-wide selector `input[type="checkbox"]:nth-of-type(i)`
within one sibling group: the position of the i-th (1-based) `input`-tagged
sibling, provided that sibling's `type` attribute is `checkbox`; CSS
`nth-of-type(0)` matches nothing. -/
def nthOfTypePos : Nat → List Elem → Option Nat
  | _, [] => none
  | 0, _ :: _ => none
  | 1, e :: es =>
    if e.inputTag then (if e.checkboxType then some 0 else none)
    else (nthOfTypePos 1 es).map (fun p => p + 1)
  | Nat.succ (Nat.succ i), e :: es =>
    if e.inputTag then (nthOfTypePos (Nat.succ i) es).map (fun p => p + 1)
    else (nthOfTypePos (Nat.succ (Nat.succ i)) es).map (fun p => p + 1)

/-- All sibling groups of the page: the `#checkboxes` container is parent 0,
the remaining parents follow. -/
def parentLists (d : Dom) : List (List Elem) := d.container :: d.rest

/-- Collect the matches of the page-wide nth-of-type selector over a list of
sibling groups, numbering parents from `k`. -/
def collectMatches (i : Nat) : Nat → List (List Elem) → List (Nat × Nat)
  | _, [] => []
  | k, es :: ps =>
    match nthOfTypePos i es with
    | some p => (k, p) :: collectMatches i (k + 1) ps
    | none => collectMatches i (k + 1) ps

/-- Every element of the page matched by
`input[type="checkbox"]:nth-of-type(i)`, as (parent, position) pairs. -/
def pageMatches (i : Nat) (d : Dom) : List (Nat × Nat) :=
  collectMatches i 0 (parentLists d)

/-- Strict-mode resolution used by locator actions: exactly one matching
element is required; zero or several matches make the action raise. -/
def resolveStrict (i : Nat) (d : Dom) : Option (Nat × Nat) :=
  match pageMatches i d with
  | [loc] => some loc
  | _ => none

/-- Write the checked flag of the element at a position of one sibling
group. -/
def setCheckedInList : List Elem → Nat → Bool → List Elem
  | [], _, _ => []
  | e :: es, 0, b => { e with checked := b } :: es
  | e :: es, Nat.succ p, b => e :: setCheckedInList es p b

/-- Write the checked flag of the element at a (group, position) address
within the non-container parents. -/
def setCheckedInRest : List (List Elem) → Nat → Nat → Bool → List (List Elem)
  | [], _, _, _ => []
  | es :: ps, 0, p, b => setCheckedInList es p b :: ps
  | es :: ps, Nat.succ k, p, b => es :: setCheckedInRest ps k p b

/-- Write the checked flag of the element at a resolved page location. -/
def Dom.setChecked (d : Dom) (loc : Nat × Nat) (b : Bool) : Dom :=
  match loc.1 with
  | 0 => { d with container := setCheckedInList d.container loc.2 b }
  | Nat.succ k => { d with rest := setCheckedInRest d.rest k loc.2 b }

/-- Read the checked flag at a position of one sibling group. -/
def readCheckedInList (es : List Elem) (p : Nat) : Option Bool :=
  (es.get? p).map (fun e => e.checked)

/-- Read the checked flag of the element at a resolved page location. -/
def Dom.readChecked (d : Dom) (loc : Nat × Nat) : Option Bool :=
  match loc.1 with
  | 0 => readCheckedInList d.container loc.2
  | Nat.succ k => (d.rest.get? k).bind (fun es => readCheckedInList es loc.2)

/-- Embedding of `CheckboxesPage.checkCheckbox(index)`: resolve the page-wide
selector string and check the matched element; `none` models the raised error
when strict resolution fails. -/
def CheckboxesPage.checkCheckbox (i : Nat) (d : Dom) : Option Dom :=
  (resolveStrict i d).map (fun loc => d.setChecked loc true)

/-- Embedding of `CheckboxesPage.uncheckCheckbox(index)`. -/
def CheckboxesPage.uncheckCheckbox (i : Nat) (d : Dom) : Option Dom :=
  (resolveStrict i d).map (fun loc => d.setChecked loc false)

/-- Embedding of `actions.isChecked(selector)` for the page-wide nth-of-type
selector string: resolve, then read the element's checked state. -/
def isCheckedSelector (i : Nat) (d : Dom) : Option Bool :=
  (resolveStrict i d).bind (fun loc => d.readChecked loc)

/-- Embedding of `CheckboxesPage.toggleCheckbox(index)`: read the current
state through `actions.isChecked(selector)`, then uncheck when checked and
check when unchecked. -/
def CheckboxesPage.toggleCheckbox (i : Nat) (d : Dom) : Option Dom :=
  match isCheckedSelector i d with
  | none => none
  | some b =>
    if b then CheckboxesPage.uncheckCheckbox i d else CheckboxesPage.checkCheckbox i d

lemma arrayToEqual_iff : ∀ xs ys : List Bool, arrayToEqual xs ys = true ↔ xs = ys := by
  intro xs
  induction xs with
  | nil => intro ys; cases ys <;> simp [arrayToEqual]
  | cons x xs ih =>
    intro ys
    cases ys with
    | nil => simp [arrayToEqual]
    | cons y ys => simp [arrayToEqual, Bool.and_eq_true, beq_iff_eq, ih]

/-- C3: the claim as stated is false at the `uncheck` wrapper: the primitive
`locator.uncheck` call it issues carries no timeout argument at all, in
particular not the claimed 10,000 ms default. -/
theorem uncheck_no_timeout_counterexample :
    (CommonActions.uncheck).1 = [PrimCall.uncheckPrim none]
    ∧ PrimCall.uncheckPrim none ≠ PrimCall.uncheckPrim (some 10000) :=
  ⟨rfl, by decide⟩

/-- C3 (amended): `check` accepts a timeout option defaulting to 10,000 ms and
passes it to `locator.check`; `uncheck` accepts no options at all and invokes
`locator.uncheck` with no timeout argument. -/
theorem commonActions_check_uncheck_timeout : ∀ options : CheckOptions,
    (CommonActions.check options).1 =
      [PrimCall.checkPrim (some (options.timeout.getD 10000))]
    ∧ (CommonActions.check {}).1 = [PrimCall.checkPrim (some 10000)]
    ∧ CommonActions.uncheck = ([PrimCall.uncheckPrim none], Except.ok ()) := by
  intro options
  exact ⟨rfl, rfl, rfl⟩

/-- C4: when the element becomes visible, `getText` first waits for
visibility and then reads the text content, both with the defaulted timeout;
it returns `undefined` (not an error) when the element has no text, and
otherwise returns the text, trimmed exactly when the `trim` option (default
true) is set. -/
theorem getText_returns_undefined_spec : ∀ (el : UiElement) (options : GetTextOptions),
    el.visible = true →
    (CommonActions.getText el options).1 =
        [PrimCall.waitForVisible (options.timeout.getD 10000),
         PrimCall.textContentPrim (options.timeout.getD 10000)]
    ∧ (el.text = none → (CommonActions.getText el options).2 = Except.ok none)
    ∧ (∀ s : String, el.text = some s →
        (CommonActions.getText el options).2 =
          Except.ok (some (if options.trim.getD true then s.trim else s))) := by
  intro el options h
  refine ⟨?_, ?_, ?_⟩
  · simp [CommonActions.getText, actBind, actPure, locatorWaitForVisible,
      locatorTextContent, h]
  · intro ht
    simp [CommonActions.getText, actBind, actPure, locatorWaitForVisible,
      locatorTextContent, h, ht]
  · intro s hs
    simp [CommonActions.getText, actBind, actPure, locatorWaitForVisible,
      locatorTextContent, h, hs]
    split <;> rfl

/-- Witness for C4 at a concrete visible element with no text. -/
theorem getText_returns_undefined_spec_witness :
    (⟨true, none⟩ : UiElement).visible = true
    ∧ (CommonActions.getText ⟨true, none⟩ {}).2 = Except.ok none :=
  ⟨rfl, (getText_returns_undefined_spec ⟨true, none⟩ {} rfl).2.1 rfl⟩

/-- C6: `click` first waits for visibility with the defaulted timeout
(10,000 ms) and then issues the click primitive with the same timeout and the
defaulted `force` flag (false); when visibility is not reached, the wrapper
propagates the `TimeoutError` after the single wait, issuing no click
primitive and making no retry. -/
theorem click_waits_then_clicks_spec : ∀ (el : UiElement) (options : ClickOptions),
    (el.visible = true →
      CommonActions.click el options =
        ([PrimCall.waitForVisible (options.timeout.getD 10000),
          PrimCall.clickPrim (options.force.getD false) (options.timeout.getD 10000)],
         Except.ok ()))
    ∧ (el.visible = false →
      CommonActions.click el options =
        ([PrimCall.waitForVisible (options.timeout.getD 10000)],
         Except.error ActionError.timeoutError)) := by
  intro el options
  constructor
  · intro h
    simp [CommonActions.click, actBind, locatorWaitForVisible, locatorClick, h]
  · intro h
    simp [CommonActions.click, actBind, locatorWaitForVisible, h]

/-- Witness for C6 at a concrete visible element with default options. -/
theorem click_waits_then_clicks_spec_witness :
    CommonActions.click ⟨true, none⟩ {} =
      ([PrimCall.waitForVisible 10000, PrimCall.clickPrim false 10000],
       Except.ok ()) :=
  (click_waits_then_clicks_spec ⟨true, none⟩ {}).1 rfl

/-- C7: `login` performs exactly three Action Wrapper calls in strict order —
fill the username field, fill the password field, click the submit button —
for every username and password, empty strings included, passing the inputs
through unvalidated. -/
theorem login_three_sequential_calls : ∀ (username password : String) (s : LoginForm),
    (LoginPage.login username password s).1 =
      [AwCall.fillCall LoginField.usernameInput username,
       AwCall.fillCall LoginField.passwordInput password,
       AwCall.clickCall LoginField.loginButton]
    ∧ (LoginPage.login username password s).2 =
      { usernameValue := username, passwordValue := password, submitted := true } := by
  intro username password s
  exact ⟨rfl, rfl⟩

/-- C8: `validateAllCheckboxStates(expected)` passes exactly when the sequence
returned by `getCheckboxStates()` equals `expected` element-for-element in
order. -/
theorem validateAllCheckboxStates_iff : ∀ (d : Dom) (expected : List Bool),
    CheckboxesPage.validateAllCheckboxStates d expected = true ↔
      CheckboxesPage.getCheckboxStates d = expected := by
  intro d expected
  exact arrayToEqual_iff _ _

/-- C10: when the flash element becomes visible, `SecurePage.getMessage`
issues its wait and read with an explicit 8,000 ms timeout (overriding the
wrapper's 10,000 ms default) and always produces a string: the empty string
when `getText` yields `undefined`, the trimmed text otherwise. -/
theorem securePage_getMessage_spec : ∀ el : UiElement,
    el.visible = true →
    (SecurePage.getMessage el).1 =
        [PrimCall.waitForVisible 8000, PrimCall.textContentPrim 8000]
    ∧ (el.text = none → (SecurePage.getMessage el).2 = Except.ok "")
    ∧ (∀ s : String, el.text = some s →
        (SecurePage.getMessage el).2 = Except.ok s.trim) := by
  intro el h
  refine ⟨?_, ?_, ?_⟩
  · simp [SecurePage.getMessage, CommonActions.getText, actBind, actPure,
      locatorWaitForVisible, locatorTextContent, h]
  · intro ht
    simp [SecurePage.getMessage, CommonActions.getText, actBind, actPure,
      locatorWaitForVisible, locatorTextContent, h, ht]
  · intro s hs
    simp [SecurePage.getMessage, CommonActions.getText, actBind, actPure,
      locatorWaitForVisible, locatorTextContent, h, hs]

/-- Witness for C10 at a concrete visible flash element with no text. -/
theorem securePage_getMessage_spec_witness :
    (SecurePage.getMessage ⟨true, none⟩).2 = Except.ok "" :=
  (securePage_getMessage_spec ⟨true, none⟩ rfl).2.1 rfl

lemma applyOp_login_stable (op : PomOp) (s : PomManager) (inst : PageInstance)
    (h : s.loginPageField = some inst) :
    ((PomManager.applyOp op s).2).loginPageField = some inst := by
  cases op with
  | getLoginOp => simp [PomManager.applyOp, PomManager.getLoginPage, h]
  | getSecureOp =>
    cases hs : s.securePageField <;>
      simp [PomManager.applyOp, PomManager.getSecurePage, hs, h]
  | getCheckboxesOp =>
    cases hs : s.checkboxesPageField <;>
      simp [PomManager.applyOp, PomManager.getCheckboxesPage, hs, h]

lemma applyOp_secure_stable (op : PomOp) (s : PomManager) (inst : PageInstance)
    (h : s.securePageField = some inst) :
    ((PomManager.applyOp op s).2).securePageField = some inst := by
  cases op with
  | getLoginOp =>
    cases hs : s.loginPageField <;>
      simp [PomManager.applyOp, PomManager.getLoginPage, hs, h]
  | getSecureOp => simp [PomManager.applyOp, PomManager.getSecurePage, h]
  | getCheckboxesOp =>
    cases hs : s.checkboxesPageField <;>
      simp [PomManager.applyOp, PomManager.getCheckboxesPage, hs, h]

lemma applyOp_checkboxes_stable (op : PomOp) (s : PomManager) (inst : PageInstance)
    (h : s.checkboxesPageField = some inst) :
    ((PomManager.applyOp op s).2).checkboxesPageField = some inst := by
  cases op with
  | getLoginOp =>
    cases hs : s.loginPageField <;>
      simp [PomManager.applyOp, PomManager.getLoginPage, hs, h]
  | getSecureOp =>
    cases hs : s.securePageField <;>
      simp [PomManager.applyOp, PomManager.getSecurePage, hs, h]
  | getCheckboxesOp => simp [PomManager.applyOp, PomManager.getCheckboxesPage, h]

lemma runOps_login_stable (ops : List PomOp) : ∀ (s : PomManager) (inst : PageInstance),
    s.loginPageField = some inst →
    (PomManager.runOps ops s).loginPageField = some inst := by
  induction ops with
  | nil => intro s inst h; simpa [PomManager.runOps] using h
  | cons op rest ih =>
    intro s inst h
    exact ih _ _ (applyOp_login_stable op s inst h)

lemma runOps_secure_stable (ops : List PomOp) : ∀ (s : PomManager) (inst : PageInstance),
    s.securePageField = some inst →
    (PomManager.runOps ops s).securePageField = some inst := by
  induction ops with
  | nil => intro s inst h; simpa [PomManager.runOps] using h
  | cons op rest ih =>
    intro s inst h
    exact ih _ _ (applyOp_secure_stable op s inst h)

lemma runOps_checkboxes_stable (ops : List PomOp) : ∀ (s : PomManager) (inst : PageInstance),
    s.checkboxesPageField = some inst →
    (PomManager.runOps ops s).checkboxesPageField = some inst := by
  induction ops with
  | nil => intro s inst h; simpa [PomManager.runOps] using h
  | cons op rest ih =>
    intro s inst h
    exact ih _ _ (applyOp_checkboxes_stable op s inst h)

lemma getLoginPage_of_some (s : PomManager) (inst : PageInstance)
    (h : s.loginPageField = some inst) : PomManager.getLoginPage s = (inst, s) := by
  simp [PomManager.getLoginPage, h]

lemma getSecurePage_of_some (s : PomManager) (inst : PageInstance)
    (h : s.securePageField = some inst) : PomManager.getSecurePage s = (inst, s) := by
  simp [PomManager.getSecurePage, h]

lemma getCheckboxesPage_of_some (s : PomManager) (inst : PageInstance)
    (h : s.checkboxesPageField = some inst) : PomManager.getCheckboxesPage s = (inst, s) := by
  simp [PomManager.getCheckboxesPage, h]

/-- C1: each `PomManager` getter stores the instance it returns on its first
call; once a backing field holds an instance, a call of that getter returns
exactly the stored instance and leaves the manager unchanged, and no sequence
of manager operations ever removes or replaces it — so repeated calls of the
same getter always return the reference-identical instance. -/
theorem pomManager_cache_invariant :
    ∀ (s : PomManager) (ops : List PomOp) (inst : PageInstance),
    ((PomManager.getLoginPage s).2).loginPageField = some (PomManager.getLoginPage s).1
    ∧ (s.loginPageField = some inst →
        PomManager.getLoginPage s = (inst, s)
        ∧ (PomManager.runOps ops s).loginPageField = some inst
        ∧ (PomManager.getLoginPage (PomManager.runOps ops s)).1 = inst)
    ∧ ((PomManager.getSecurePage s).2).securePageField = some (PomManager.getSecurePage s).1
    ∧ (s.securePageField = some inst →
        PomManager.getSecurePage s = (inst, s)
        ∧ (PomManager.runOps ops s).securePageField = some inst
        ∧ (PomManager.getSecurePage (PomManager.runOps ops s)).1 = inst)
    ∧ ((PomManager.getCheckboxesPage s).2).checkboxesPageField
        = some (PomManager.getCheckboxesPage s).1
    ∧ (s.checkboxesPageField = some inst →
        PomManager.getCheckboxesPage s = (inst, s)
        ∧ (PomManager.runOps ops s).checkboxesPageField = some inst
        ∧ (PomManager.getCheckboxesPage (PomManager.runOps ops s)).1 = inst) := by
  intro s ops inst
  refine ⟨?_, ?_, ?_, ?_, ?_, ?_⟩
  · cases hs : s.loginPageField <;> simp [PomManager.getLoginPage, hs]
  · intro h
    have hrun := runOps_login_stable ops s inst h
    exact ⟨getLoginPage_of_some s inst h, hrun, by
      rw [getLoginPage_of_some _ _ hrun]⟩
  · cases hs : s.securePageField <;> simp [PomManager.getSecurePage, hs]
  · intro h
    have hrun := runOps_secure_stable ops s inst h
    exact ⟨getSecurePage_of_some s inst h, hrun, by
      rw [getSecurePage_of_some _ _ hrun]⟩
  · cases hs : s.checkboxesPageField <;> simp [PomManager.getCheckboxesPage, hs]
  · intro h
    have hrun := runOps_checkboxes_stable ops s inst h
    exact ⟨getCheckboxesPage_of_some s inst h, hrun, by
      rw [getCheckboxesPage_of_some _ _ hrun]⟩

/-- Witness for C1: after the login page has been constructed and stored,
running the other getters keeps the stored instance, and a later
`getLoginPage` call returns the identical instance. -/
theorem pomManager_cache_invariant_witness :
    (PomManager.runOps [PomOp.getSecureOp, PomOp.getCheckboxesOp]
        ⟨0, 1, some ⟨0, 0⟩, none, none⟩).loginPageField = some ⟨0, 0⟩
    ∧ (PomManager.getLoginPage
        (PomManager.runOps [PomOp.getSecureOp, PomOp.getCheckboxesOp]
          ⟨0, 1, some ⟨0, 0⟩, none, none⟩)).1 = ⟨0, 0⟩ :=
  ⟨((pomManager_cache_invariant ⟨0, 1, some ⟨0, 0⟩, none, none⟩
      [PomOp.getSecureOp, PomOp.getCheckboxesOp] ⟨0, 0⟩).2.1 rfl).2.1,
   ((pomManager_cache_invariant ⟨0, 1, some ⟨0, 0⟩, none, none⟩
      [PomOp.getSecureOp, PomOp.getCheckboxesOp] ⟨0, 0⟩).2.1 rfl).2.2⟩

lemma childStates_cons (e : Elem) (es : List Elem) :
    childStates (e :: es) =
      if elemIsCheckbox e then e.checked :: childStates es else childStates es := by
  cases h : elemIsCheckbox e <;> simp [childStates, List.filterMap_cons, h]

lemma elemIsCheckbox_setChecked (e : Elem) (b : Bool) :
    elemIsCheckbox { e with checked := b } = elemIsCheckbox e := rfl

lemma checkAllGo_states : ∀ (es : List Elem) (m : Nat),
    childStates (checkAllGo m es).2 = List.replicate (childStates es).length true := by
  intro es
  induction es with
  | nil => intro m; simp [checkAllGo, childStates]
  | cons e es ih =>
    intro m
    cases h : elemIsCheckbox e with
    | false => simp [checkAllGo, h, childStates_cons, ih]
    | true =>
      cases hc : e.checked with
      | true => simp [checkAllGo, h, hc, childStates_cons, ih, List.replicate_succ]
      | false =>
        simp [checkAllGo, h, hc, childStates_cons, elemIsCheckbox_setChecked, ih,
          List.replicate_succ]

lemma uncheckAllGo_states : ∀ (es : List Elem) (m : Nat),
    childStates (uncheckAllGo m es).2 = List.replicate (childStates es).length false := by
  intro es
  induction es with
  | nil => intro m; simp [uncheckAllGo, childStates]
  | cons e es ih =>
    intro m
    cases h : elemIsCheckbox e with
    | false => simp [uncheckAllGo, h, childStates_cons, ih]
    | true =>
      cases hc : e.checked with
      | false => simp [uncheckAllGo, h, hc, childStates_cons, ih, List.replicate_succ]
      | true =>
        simp [uncheckAllGo, h, hc, childStates_cons, elemIsCheckbox_setChecked, ih,
          List.replicate_succ]

lemma checkAllGo_mem : ∀ (es : List Elem) (m j : Nat),
    j ∈ (checkAllGo m es).1 ↔
      ∃ i, (childStates es).get? i = some false ∧ j = m + i := by
  intro es
  induction es with
  | nil => intro m j; simp [checkAllGo, childStates]
  | cons e es ih =>
    intro m j
    cases h : elemIsCheckbox e with
    | false =>
      rw [childStates_cons]
      simp only [h, Bool.false_eq_true, if_false]
      simpa [checkAllGo, h] using ih m j
    | true =>
      rw [childStates_cons]
      simp only [h, if_true]
      cases hc : e.checked with
      | true =>
        simp only [checkAllGo, h, hc, if_true]
        rw [ih (m + 1) j]
        constructor
        · rintro ⟨i, hi, hj⟩
          exact ⟨i + 1, by simpa using hi, by omega⟩
        · rintro ⟨i, hi, hj⟩
          cases i with
          | zero => simp at hi
          | succ i => exact ⟨i, by simpa using hi, by omega⟩
      | false =>
        have hgo : (checkAllGo m (e :: es)).1 = m :: (checkAllGo (m + 1) es).1 := by
          simp [checkAllGo, h, hc]
        rw [hgo, List.mem_cons, ih (m + 1) j]
        constructor
        · rintro (rfl | ⟨i, hi, hj⟩)
          · exact ⟨0, by simp, by omega⟩
          · exact ⟨i + 1, by simpa using hi, by omega⟩
        · rintro ⟨i, hi, hj⟩
          cases i with
          | zero => left; omega
          | succ i => right; exact ⟨i, by simpa using hi, by omega⟩

lemma uncheckAllGo_mem : ∀ (es : List Elem) (m j : Nat),
    j ∈ (uncheckAllGo m es).1 ↔
      ∃ i, (childStates es).get? i = some true ∧ j = m + i := by
  intro es
  induction es with
  | nil => intro m j; simp [uncheckAllGo, childStates]
  | cons e es ih =>
    intro m j
    cases h : elemIsCheckbox e with
    | false =>
      rw [childStates_cons]
      simp only [h, Bool.false_eq_true, if_false]
      simpa [uncheckAllGo, h] using ih m j
    | true =>
      rw [childStates_cons]
      simp only [h, if_true]
      cases hc : e.checked with
      | false =>
        have hgo : (uncheckAllGo m (e :: es)).1 = (uncheckAllGo (m + 1) es).1 := by
          simp [uncheckAllGo, h, hc]
        rw [hgo, ih (m + 1) j]
        constructor
        · rintro ⟨i, hi, hj⟩
          exact ⟨i + 1, by simpa using hi, by omega⟩
        · rintro ⟨i, hi, hj⟩
          cases i with
          | zero => simp at hi
          | succ i => exact ⟨i, by simpa using hi, by omega⟩
      | true =>
        simp only [uncheckAllGo, h, hc, if_true, List.mem_cons]
        rw [ih (m + 1) j]
        constructor
        · rintro (rfl | ⟨i, hi, hj⟩)
          · exact ⟨0, by simp, by omega⟩
          · exact ⟨i + 1, by simpa using hi, by omega⟩
        · rintro ⟨i, hi, hj⟩
          cases i with
          | zero => left; omega
          | succ i => right; exact ⟨i, by simpa using hi, by omega⟩

/-- C2: for any starting DOM, `checkAll` flips exactly the currently-unchecked
checkboxes (its trace holds index `j` exactly when checkbox `j` reads false,
and no operation is issued for already-checked ones), touches nothing outside
the container, and afterwards `getCheckboxStates` is all-true; dually,
`uncheckAll` flips exactly the currently-checked ones and afterwards
`getCheckboxStates` is all-false. -/
theorem checkAll_uncheckAll_spec : ∀ d : Dom,
    CheckboxesPage.getCheckboxStates (CheckboxesPage.checkAll d).2
      = List.replicate (CheckboxesPage.getCheckboxStates d).length true
    ∧ (∀ j, j ∈ (CheckboxesPage.checkAll d).1 ↔
        (CheckboxesPage.getCheckboxStates d).get? j = some false)
    ∧ (CheckboxesPage.checkAll d).2.rest = d.rest
    ∧ CheckboxesPage.getCheckboxStates (CheckboxesPage.uncheckAll d).2
      = List.replicate (CheckboxesPage.getCheckboxStates d).length false
    ∧ (∀ j, j ∈ (CheckboxesPage.uncheckAll d).1 ↔
        (CheckboxesPage.getCheckboxStates d).get? j = some true)
    ∧ (CheckboxesPage.uncheckAll d).2.rest = d.rest := by
  intro d
  refine ⟨?_, ?_, rfl, ?_, ?_, rfl⟩
  · exact checkAllGo_states d.container 0
  · intro j
    rw [CheckboxesPage.checkAll]
    rw [checkAllGo_mem d.container 0 j]
    constructor
    · rintro ⟨i, hi, hj⟩
      simpa [CheckboxesPage.getCheckboxStates, show j = i by omega] using hi
    · intro hj
      exact ⟨j, hj, by omega⟩
  · exact uncheckAllGo_states d.container 0
  · intro j
    rw [CheckboxesPage.uncheckAll]
    rw [uncheckAllGo_mem d.container 0 j]
    constructor
    · rintro ⟨i, hi, hj⟩
      simpa [CheckboxesPage.getCheckboxStates, show j = i by omega] using hi
    · intro hj
      exact ⟨j, hj, by omega⟩

lemma nthOfTypePos_setCheckedInList : ∀ (es : List Elem) (i p : Nat) (b : Bool),
    nthOfTypePos i (setCheckedInList es p b) = nthOfTypePos i es := by
  intro es
  induction es with
  | nil => intro i p b; rfl
  | cons e es ih =>
    intro i p b
    cases p with
    | zero => rcases i with _ | _ | i <;> rfl
    | succ p => rcases i with _ | _ | i <;> simp [nthOfTypePos, setCheckedInList, ih]

lemma collectMatches_setCheckedInRest : ∀ (ps : List (List Elem)) (i k0 k p : Nat) (b : Bool),
    collectMatches i k0 (setCheckedInRest ps k p b) = collectMatches i k0 ps := by
  intro ps
  induction ps with
  | nil => intro i k0 k p b; rfl
  | cons es ps ih =>
    intro i k0 k p b
    cases k with
    | zero => simp only [setCheckedInRest, collectMatches, nthOfTypePos_setCheckedInList]
    | succ k => simp only [setCheckedInRest, collectMatches, ih]

lemma resolveStrict_setChecked (i : Nat) (d : Dom) (loc : Nat × Nat) (b : Bool) :
    resolveStrict i (d.setChecked loc b) = resolveStrict i d := by
  rcases loc with ⟨k, p⟩
  cases k with
  | zero =>
    simp only [resolveStrict, pageMatches, Dom.setChecked, parentLists, collectMatches,
      nthOfTypePos_setCheckedInList]
  | succ k =>
    simp only [resolveStrict, pageMatches, Dom.setChecked, parentLists, collectMatches,
      collectMatches_setCheckedInRest]

lemma readCheckedInList_setCheckedInList : ∀ (es : List Elem) (p : Nat) (b : Bool),
    readCheckedInList (setCheckedInList es p b) p
      = (readCheckedInList es p).map (fun _ => b) := by
  intro es
  induction es with
  | nil => intro p b; cases p <;> rfl
  | cons e es ih =>
    intro p b
    cases p with
    | zero => rfl
    | succ p => exact ih p b

lemma get?_setCheckedInRest : ∀ (ps : List (List Elem)) (k p : Nat) (b : Bool),
    (setCheckedInRest ps k p b).get? k
      = (ps.get? k).map (fun es => setCheckedInList es p b) := by
  intro ps
  induction ps with
  | nil => intro k p b; cases k <;> rfl
  | cons es ps ih =>
    intro k p b
    cases k with
    | zero => rfl
    | succ k => exact ih k p b

lemma readChecked_setChecked (d : Dom) (loc : Nat × Nat) (b : Bool) :
    (d.setChecked loc b).readChecked loc = (d.readChecked loc).map (fun _ => b) := by
  rcases loc with ⟨k, p⟩
  cases k with
  | zero => exact readCheckedInList_setCheckedInList d.container p b
  | succ k =>
    simp only [Dom.setChecked, Dom.readChecked]
    rw [get?_setCheckedInRest]
    cases hr : d.rest.get? k with
    | none => rfl
    | some es => simpa using readCheckedInList_setCheckedInList es p b

lemma setCheckedInList_setCheckedInList : ∀ (es : List Elem) (p : Nat) (b' b : Bool),
    setCheckedInList (setCheckedInList es p b') p b = setCheckedInList es p b := by
  intro es
  induction es with
  | nil => intro p b' b; rfl
  | cons e es ih =>
    intro p b' b
    cases p with
    | zero => rfl
    | succ p => simp only [setCheckedInList, ih]

lemma setCheckedInRest_setCheckedInRest : ∀ (ps : List (List Elem)) (k p : Nat) (b' b : Bool),
    setCheckedInRest (setCheckedInRest ps k p b') k p b = setCheckedInRest ps k p b := by
  intro ps
  induction ps with
  | nil => intro k p b' b; rfl
  | cons es ps ih =>
    intro k p b' b
    cases k with
    | zero => simp only [setCheckedInRest, setCheckedInList_setCheckedInList]
    | succ k => simp only [setCheckedInRest, ih]

lemma setChecked_setChecked (d : Dom) (loc : Nat × Nat) (b' b : Bool) :
    (d.setChecked loc b').setChecked loc b = d.setChecked loc b := by
  rcases loc with ⟨k, p⟩
  cases k with
  | zero => simp only [Dom.setChecked, setCheckedInList_setCheckedInList]
  | succ k => simp only [Dom.setChecked, setCheckedInRest_setCheckedInRest]

lemma setCheckedInList_of_read : ∀ (es : List Elem) (p : Nat) (b : Bool),
    readCheckedInList es p = some b → setCheckedInList es p b = es := by
  intro es
  induction es with
  | nil => intro p b h; cases p <;> simp [readCheckedInList] at h
  | cons e es ih =>
    intro p b h
    cases p with
    | zero =>
      have hb : b = e.checked := by
        simpa [readCheckedInList] using h.symm
      subst hb
      rfl
    | succ p =>
      simp only [setCheckedInList]
      rw [ih p b h]

lemma setCheckedInRest_of_read : ∀ (ps : List (List Elem)) (k p : Nat) (b : Bool),
    (ps.get? k).bind (fun es => readCheckedInList es p) = some b →
    setCheckedInRest ps k p b = ps := by
  intro ps
  induction ps with
  | nil => intro k p b h; cases k <;> simp at h
  | cons es ps ih =>
    intro k p b h
    cases k with
    | zero =>
      simp only [List.get?] at h
      simp only [setCheckedInRest]
      rw [setCheckedInList_of_read es p b (by simpa using h)]
    | succ k =>
      simp only [setCheckedInRest]
      rw [ih k p b (by simpa using h)]

lemma setChecked_of_read (d : Dom) (loc : Nat × Nat) (b : Bool)
    (h : d.readChecked loc = some b) : d.setChecked loc b = d := by
  rcases loc with ⟨k, p⟩
  cases k with
  | zero =>
    simp only [Dom.setChecked]
    rw [setCheckedInList_of_read d.container p b h]
  | succ k =>
    simp only [Dom.setChecked]
    rw [setCheckedInRest_of_read d.rest k p b h]

lemma toggleCheckbox_eq (i : Nat) (d d' : Dom)
    (h : CheckboxesPage.toggleCheckbox i d = some d') :
    ∃ loc b, resolveStrict i d = some loc ∧ d.readChecked loc = some b
      ∧ d' = d.setChecked loc (!b) := by
  unfold CheckboxesPage.toggleCheckbox at h
  cases hres : isCheckedSelector i d with
  | none => rw [hres] at h; exact absurd h (by simp)
  | some b =>
    rw [hres] at h
    unfold isCheckedSelector at hres
    cases hloc : resolveStrict i d with
    | none => rw [hloc] at hres; simp at hres
    | some loc =>
      rw [hloc] at hres
      simp only [Option.some_bind] at hres
      refine ⟨loc, b, rfl, hres, ?_⟩
      cases b with
      | true =>
        simp only [if_true] at h
        simp only [CheckboxesPage.uncheckCheckbox, hloc, Option.map_some'] at h
        simpa [Bool.not_true] using h.symm
      | false =>
        simp only [Bool.false_eq_true, if_false] at h
        simp only [CheckboxesPage.checkCheckbox, hloc, Option.map_some'] at h
        simpa [Bool.not_false] using h.symm

/-- C5: whenever `toggleCheckbox(i)` succeeds it reads the current state of
the uniquely resolved element and writes the opposite state, and toggling
again with no mutation in between restores the original DOM exactly
(double-toggle is the identity). -/
theorem toggleCheckbox_involution : ∀ (i : Nat) (d d' : Dom),
    CheckboxesPage.toggleCheckbox i d = some d' →
    CheckboxesPage.toggleCheckbox i d' = some d
    ∧ ∃ loc b, resolveStrict i d = some loc ∧ d.readChecked loc = some b
        ∧ d' = d.setChecked loc (!b) := by
  intro i d d' h
  obtain ⟨loc, b, hloc, hread, hd'⟩ := toggleCheckbox_eq i d d' h
  refine ⟨?_, loc, b, hloc, hread, hd'⟩
  have hres' : resolveStrict i d' = some loc := by
    rw [hd', resolveStrict_setChecked, hloc]
  have hread' : d'.readChecked loc = some (!b) := by
    rw [hd', readChecked_setChecked, hread]
    rfl
  have hsel' : isCheckedSelector i d' = some (!b) := by
    unfold isCheckedSelector
    rw [hres']
    simpa using hread'
  unfold CheckboxesPage.toggleCheckbox
  rw [hsel']
  cases b with
  | true =>
    simp only [Bool.not_true, Bool.false_eq_true, if_false]
    unfold CheckboxesPage.checkCheckbox
    rw [hres']
    have hback : d'.setChecked loc true = d := by
      rw [hd', setChecked_setChecked]
      exact setChecked_of_read d loc true hread
    simp [hback]
  | false =>
    simp only [Bool.not_false, if_true]
    unfold CheckboxesPage.uncheckCheckbox
    rw [hres']
    have hback : d'.setChecked loc false = d := by
      rw [hd', setChecked_setChecked]
      exact setChecked_of_read d loc false hread
    simp [hback]

/-- Witness for C5: a one-checkbox page toggled from unchecked to checked and
back. -/
theorem toggleCheckbox_involution_witness :
    CheckboxesPage.toggleCheckbox 1 (⟨[⟨true, true, false⟩], []⟩ : Dom)
      = some (⟨[⟨true, true, true⟩], []⟩ : Dom)
    ∧ CheckboxesPage.toggleCheckbox 1 (⟨[⟨true, true, true⟩], []⟩ : Dom)
      = some (⟨[⟨true, true, false⟩], []⟩ : Dom) :=
  ⟨rfl, (toggleCheckbox_involution 1 ⟨[⟨true, true, false⟩], []⟩
    ⟨[⟨true, true, true⟩], []⟩ rfl).1⟩

/-- C9: the index-based operations resolve the page-wide selector
`input[type="checkbox"]:nth-of-type(i)` while `getCheckboxStates` enumerates
the `#checkboxes`-scoped locator, so on a page whose container children are a
non-checkbox input followed by a checkbox, with one more checkbox outside the
container, `checkCheckbox(1)` succeeds yet acts on the outside element: the
reported state sequence stays `[false]` and only an element outside the
container changes. -/
theorem indexSelector_container_mismatch :
    CheckboxesPage.getCheckboxStates
      (⟨[⟨true, false, false⟩, ⟨true, true, false⟩],
        [[⟨true, true, false⟩]]⟩ : Dom) = [false]
    ∧ CheckboxesPage.checkCheckbox 1
        (⟨[⟨true, false, false⟩, ⟨true, true, false⟩],
          [[⟨true, true, false⟩]]⟩ : Dom)
      = some (⟨[⟨true, false, false⟩, ⟨true, true, false⟩],
          [[⟨true, true, true⟩]]⟩ : Dom)
    ∧ CheckboxesPage.getCheckboxStates
        (⟨[⟨true, false, false⟩, ⟨true, true, false⟩],
          [[⟨true, true, true⟩]]⟩ : Dom) = [false]
    ∧ (⟨[⟨true, false, false⟩, ⟨true, true, false⟩],
        [[⟨true, true, true⟩]]⟩ : Dom).container
      = (⟨[⟨true, false, false⟩, ⟨true, true, false⟩],
          [[⟨true, true, false⟩]]⟩ : Dom).container
    ∧ (⟨[⟨true, false, false⟩, ⟨true, true, false⟩],
        [[⟨true, true, true⟩]]⟩ : Dom).rest
      ≠ (⟨[⟨true, false, false⟩, ⟨true, true, false⟩],
          [[⟨true, true, false⟩]]⟩ : Dom).rest := by
  refine ⟨rfl, rfl, rfl, rfl, ?_⟩
  decide
